import Mathlib

/-!
# Verification of the travelguide content-freshness and location pipeline

Shallow embedding of the decision engine in `optimizetreavel.py`: the
staleness detector, the location resolver and validator, the bounded
validated-location fetch loop, and the reconciliation entry point.
External capabilities (geocoding service, judgment/generation agents,
wall clock, document store) are modelled as explicit oracle arguments;
Python exceptions raised by an external call are modelled as a
distinguished oracle outcome, and Python string truthiness is modelled
with `Option.getD ""`.
-/

set_option autoImplicit false

namespace TravelGuide

/-! ## Python string primitives -/

/-- Lowercase needle-is-a-list-prefix test used to build substring search. -/
def listPre : List Char → List Char → Bool
  | [], _ => true
  | _ :: _, [] => false
  | a :: as, b :: bs => a == b && listPre as bs

/-- Predicate `pySub n h`: some contiguous run of `h` starts with `n`
(Python `n in h` for strings). -/
def pySub : List Char → List Char → Bool
  | n, [] => listPre n []
  | n, c :: h => listPre n (c :: h) || pySub n h

/-- Python `needle in haystack` on strings. -/
def pyIn (needle haystack : String) : Bool :=
  pySub needle.toList haystack.toList

/-- Python `s.lower()` (character-wise, as a kernel-computable map). -/
def pyLower (s : String) : String :=
  String.mk (s.data.map Char.toLower)

/-- Python `s.strip()`: drop leading and trailing whitespace. -/
def pyStrip (s : String) : String :=
  String.mk (((s.data.dropWhile Char.isWhitespace).reverse.dropWhile Char.isWhitespace).reverse)

/-- Whitespace tokenizer: accumulates the current word (reversed) and
emits words between whitespace runs. -/
def wordsAux : List Char → List Char → List String
  | [], cur => if cur.isEmpty then [] else [String.mk cur.reverse]
  | c :: cs, cur =>
    if c.isWhitespace then
      if cur.isEmpty then wordsAux cs []
      else String.mk cur.reverse :: wordsAux cs []
    else wordsAux cs (c :: cur)

/-- Python `s.split()`: split on whitespace runs, dropping empty pieces. -/
def pySplit (s : String) : List String :=
  wordsAux s.data []

/-- Python `s.lower().replace(' ', '-')`, the slug derivation. -/
def slugify (s : String) : String :=
  String.mk ((pyLower s).data.map (fun c => if c = ' ' then '-' else c))

/-! ## StalenessDetector (lines 213-264 of `optimizetreavel.py`)

`createdAt` values reach `is_content_outdated` as a missing value, an
unparsable string, or a parsed datetime; what the code does with a parsed
datetime depends only on `(datetime.now() - created_at).days`, so the
embedding carries that age directly. -/

/-- The `created_at` argument of `is_content_outdated`, with the wall
clock folded in: `parsed d` stands for a datetime whose distance to now
is `d` whole days. -/
inductive CreatedAt where
  | missing : CreatedAt
  | unparsable : CreatedAt
  | parsed (ageDays : Int) : CreatedAt
  deriving DecidableEq, Repr

/-- Source `is_content_outdated(created_at, days_threshold)`: missing or
unparsable timestamps count as outdated; otherwise the age in days must
exceed the threshold. -/
def is_content_outdated (created_at : CreatedAt) (days_threshold : Int) : Bool :=
  match created_at with
  | .missing => true
  | .unparsable => true
  | .parsed d => d > days_threshold

/-- Fixed list of non-target regions and cities from `contains_wrong_location`. -/
def wrong_locations : List String :=
  ["mumbai", "delhi", "bangalore", "kolkata", "chennai", "hyderabad",
   "maharashtra", "karnataka", "tamil nadu", "kerala", "andhra pradesh",
   "punjab", "rajasthan", "uttar pradesh", "bihar", "west bengal"]

/-- Beach keywords that mark a topic as target-region in `contains_wrong_location`. -/
def beach_keywords : List String :=
  ["beach", "miramar", "baga", "calangute", "anjuna"]

/-- Source `contains_wrong_location(content, user_topic)`. -/
def contains_wrong_location (content user_topic : String) : Bool :=
  if content = "" || user_topic = "" then false
  else
    let content_lower := pyLower content
    let user_topic_lower := pyLower user_topic
    if pyIn "goa" user_topic_lower || beach_keywords.any (fun b => pyIn b user_topic_lower) then
      wrong_locations.any (fun l => pyIn l content_lower)
    else false

/-- Fixed list of generic filler phrases from `contains_generic_phrases`. -/
def generic_phrases : List String :=
  ["this is a nice place", "popular destination", "famous location",
   "well known", "great spot", "beautiful place", "good area",
   "this location is", "visit this place", "famous spot",
   "this is a place", "this destination", "well-known destination"]

/-- Source `contains_generic_phrases(content)`: an empty field counts as generic. -/
def contains_generic_phrases (content : String) : Bool :=
  if content = "" then true
  else generic_phrases.any (fun p => pyIn p (pyLower content))

/-- Source `missing_topic_name(content, user_topic)`: true when either string is
empty, or the lowered topic does not occur in the lowered content. -/
def missing_topic_name (content user_topic : String) : Bool :=
  if content = "" || user_topic = "" then true
  else !(pyIn (pyLower user_topic) (pyLower content))

/-- Fixed list of stale year tokens from `contains_outdated_years`. -/
def outdated_years : List String := ["2023", "2022", "2021", "2020"]

/-- Source `contains_outdated_years(content)`. -/
def contains_outdated_years (content : String) : Bool :=
  if content = "" then false
  else outdated_years.any (fun y => pyIn y (pyLower content))

/-- Source `needs_field_update(field_content, user_topic, created_at, is_content_field)`:
the short-circuit chain of the six staleness rules, in source order. -/
def needs_field_update (field_content user_topic : String)
    (created_at : CreatedAt) (is_content_field : Bool) : Bool :=
  if field_content = "" || pyStrip field_content = "" then true
  else if is_content_outdated created_at 60 then true
  else if contains_wrong_location field_content user_topic then true
  else if contains_generic_phrases field_content then true
  else if missing_topic_name field_content user_topic then true
  else if is_content_field && contains_outdated_years field_content then true
  else false

/-! ## LocationResolver (`fetch_location`, lines 693-752; `fetch_location_precise`, lines 626-645)

The Nominatim service is an oracle `geo : String → Option (List GeoResult)`;
`none` models a request that raised (network error / non-200 status), and a
returned JSON item is modelled by the fields the code reads.  Coordinates
are carried as integers: the claims under verification never inspect
float arithmetic, and results are assumed to carry numeric `lat`/`lon`.
Alongside its result, the loop records the externally visible trace of
HTTP requests and rate-limit sleeps. -/

/-- One Nominatim result as read by the code: optional `display_name`,
optional `address.country_code`, and coordinates. -/
structure GeoResult where
  display_name : Option String
  country_code : Option String
  lat : Int
  lon : Int
  deriving DecidableEq, Repr

/-- A location candidate dict: the keys `fetch_location` and its callers
read, with `none` for an absent key.  The error dict
`{"error": "Location not found", "address": query}` carries `lat = lon = 0`,
matching the `get(..., 0.0)` defaults applied wherever they are read. -/
structure LocationCandidate where
  address : Option String
  latitude : Int
  longitude : Int
  error : Option String
  deriving DecidableEq, Repr

/-- The empty candidate `{"address": None, "latitude": 0.0, "longitude": 0.0}`. -/
def noAddressCandidate : LocationCandidate := ⟨none, 0, 0, none⟩

/-- The failure candidate `{"error": "Location not found", "address": address}`. -/
def notFoundCandidate (address : String) : LocationCandidate :=
  ⟨some address, 0, 0, some "Location not found"⟩

/-- Candidate built from a Nominatim result:
`display_name` with the query string as default, plus coordinates. -/
def candidateOf (r : GeoResult) (address : String) : LocationCandidate :=
  ⟨some (r.display_name.getD address), r.lat, r.lon, none⟩

/-- India match used on each result: `'india' in display_name.lower()`
or `address.country_code.lower() == 'in'`. -/
def isIndianResult (r : GeoResult) : Bool :=
  pyIn "india" (pyLower (r.display_name.getD "")) || pyLower (r.country_code.getD "") == "in"

/-- Externally visible events of a resolver run: an HTTP request for a
query, or a deliberate pause measured in tenths of a second. -/
inductive Event where
  | request (query : String) : Event
  | sleep (tenths : Nat) : Event
  deriving DecidableEq, Repr

/-- The ten state suffixes used by `fetch_location`. -/
def state_suffixes : List String :=
  [", Goa, India", ", Maharashtra, India", ", Karnataka, India",
   ", Kerala, India", ", Tamil Nadu, India", ", Andhra Pradesh, India",
   ", Odisha, India", ", West Bengal, India", ", Gujarat, India",
   ", Andaman and Nicobar Islands, India"]

/-- The `search_strategies` list of `fetch_location`, in source order. -/
def search_strategies (address : String) : List String :=
  let hasBeach := pyIn "beach" (pyLower address)
  [address ++ ", India"]
    ++ state_suffixes.map (fun st => address ++ st)
    ++ [if hasBeach then address else address ++ " beach, India"]
    ++ (if hasBeach then [] else state_suffixes.map (fun st => address ++ " beach" ++ st))
    ++ [address]
    ++ [if hasBeach then address else address ++ " beach"]

/-- First-occurrence de-duplication, as `list(dict.fromkeys(...))`. -/
def dedupKeepFirst (seen : List String) : List String → List String
  | [] => []
  | x :: xs =>
    if x ∈ seen then dedupKeepFirst seen xs
    else x :: dedupKeepFirst (x :: seen) xs

/-- Source `unique_strategies = list(dict.fromkeys(search_strategies))`. -/
def unique_strategies (address : String) : List String :=
  dedupKeepFirst [] (search_strategies address)

/-- The strategy loop of `fetch_location`, carrying `best_indian_result`
and emitting one request event per strategy tried.  A failing request
(`geo q = none`) and an empty result list both fall through to the next
strategy; the first strategy with an India-matching result returns that
result at once. -/
def fetchLocationLoop (geo : String → Option (List GeoResult)) (address : String) :
    List String → Option LocationCandidate → LocationCandidate × List Event
  | [], best => (best.getD (notFoundCandidate address), [])
  | q :: qs, best =>
    match geo q with
    | none =>
      let rest := fetchLocationLoop geo address qs best
      (rest.1, .request q :: rest.2)
    | some [] =>
      let rest := fetchLocationLoop geo address qs best
      (rest.1, .request q :: rest.2)
    | some (d :: ds) =>
      match (d :: ds).filter isIndianResult with
      | ir :: _ => (candidateOf ir address, [.request q])
      | [] =>
        let best1 := match best with
          | none => some (candidateOf d address)
          | some b => some b
        let rest := fetchLocationLoop geo address qs best1
        (rest.1, .request q :: rest.2)

/-- Source `fetch_location(address)`: result component. -/
def fetch_location (geo : String → Option (List GeoResult)) (address : String) :
    LocationCandidate :=
  if address = "" then noAddressCandidate
  else (fetchLocationLoop geo address (unique_strategies address) none).1

/-- Source `fetch_location(address)`: trace of issued requests and sleeps. -/
def fetch_location_events (geo : String → Option (List GeoResult)) (address : String) :
    List Event :=
  if address = "" then []
  else (fetchLocationLoop geo address (unique_strategies address) none).2

/-- Trace of `fetch_location_precise(query)`: a 1.1-second sleep
(`time.sleep(1.1)`, 11 tenths) followed by exactly one search request. -/
def fetch_location_precise_events (query : String) : List Event :=
  [.sleep 11, .request query]

/-- First strategy, in order, whose (possibly failed, hence `getD []`)
response contains an India-matching result: that first matching result. -/
def firstIndianHit (geo : String → Option (List GeoResult)) (address : String)
    (qs : List String) : Option LocationCandidate :=
  qs.findSome?
    (fun q => (((geo q).getD []).filter isIndianResult).head?.map (candidateOf · address))

/-- First non-empty response from any strategy, in order: its first result. -/
def firstAnyHit (geo : String → Option (List GeoResult)) (address : String)
    (qs : List String) : Option LocationCandidate :=
  qs.findSome? (fun q => ((geo q).getD []).head?.map (candidateOf · address))

/-- Spec-side resolver, following §4.2 of the specification word for
word: stop at the first strategy yielding a target-country result and
return that result; otherwise return the first non-empty result seen
from any strategy; otherwise report `Location not found`. -/
def fetch_location_spec (geo : String → Option (List GeoResult)) (address : String) :
    LocationCandidate :=
  if address = "" then noAddressCandidate
  else
    ((firstIndianHit geo address (unique_strategies address)).or
      (firstAnyHit geo address (unique_strategies address))).getD
        (notFoundCandidate address)

/-- The rate-limit discipline asserted by the specification: every
request event is immediately preceded by a sleep of at least one second
(ten tenths). -/
def throttledFrom (prev : Option Event) : List Event → Bool
  | [] => true
  | .request q :: rest =>
    (match prev with
     | some (.sleep t) => Nat.ble 10 t
     | _ => false) && throttledFrom (some (.request q)) rest
  | .sleep t :: rest => throttledFrom (some (.sleep t)) rest

/-- A trace is throttled when each request follows a ≥1s pause. -/
def throttled (events : List Event) : Bool :=
  throttledFrom none events

/-! ## Retry-query derivation (`modify_search_query_for_retry`, lines 465-490) -/

/-- Source `modify_search_query_for_retry(user_topic, content_type, attempt)`. -/
def modify_search_query_for_retry (user_topic content_type : String) (attempt : Nat) : String :=
  if attempt = 0 then
    if pyIn "goa" (pyLower user_topic) then user_topic
    else user_topic ++ ", Goa"
  else if attempt = 1 then
    if content_type = "beach" then user_topic ++ " Beach"
    else if content_type = "restaurant" then user_topic ++ " Restaurant"
    else if content_type = "event" then user_topic ++ " Festival"
    else user_topic
  else
    match pySplit user_topic with
    | [] => user_topic
    | w :: _ => w

/-- Spec-side retry-query derivation, following the specification's
words: attempt 0 appends ", Goa" when "goa" is absent from the topic;
attempt 1 appends a content-type keyword; attempt ≥ 2 collapses to the
first whitespace token of the topic (the topic itself when it has no
tokens, as the source does). -/
def retry_query_spec (user_topic content_type : String) (attempt : Nat) : String :=
  if attempt = 0 then
    if pyIn "goa" (pyLower user_topic) then user_topic else user_topic ++ ", Goa"
  else if attempt = 1 then
    if content_type = "beach" then user_topic ++ " Beach"
    else if content_type = "restaurant" then user_topic ++ " Restaurant"
    else if content_type = "event" then user_topic ++ " Festival"
    else user_topic
  else (pySplit user_topic).headD user_topic

/-! ## LocationValidator (`validate_existing_location_in_db`, lines 359-397)

The judgment agent is an oracle: it can raise (`err`), return a non-dict
value such as plain text (`nonDict`), or return a dict whose keys may
each be absent. -/

/-- Outcome of one `safe_run` call on the validator agent. -/
inductive AgentOutcome where
  | err : AgentOutcome
  | nonDict : AgentOutcome
  | dict (is_valid : Option Bool) (should_retry : Option Bool) (reason : Option String) :
      AgentOutcome
  deriving DecidableEq, Repr

/-- The `location` sub-document of a stored record. -/
structure LocationData where
  address : Option String
  latitude : Int
  longitude : Int
  deriving DecidableEq, Repr

/-- The slice of a stored document that `validate_existing_location_in_db`
reads: its `location` field, with `none` for a missing or falsy value. -/
structure DocView where
  location : Option LocationData
  deriving DecidableEq, Repr

/-- The verdict dict built by `validate_existing_location_in_db`.
`should_retry` is present only on the normal agent-dict branch. -/
structure DbValidation where
  is_valid : Bool
  needs_update : Bool
  reason : String
  should_retry : Option Bool
  deriving DecidableEq, Repr

/-- Source `validate_existing_location_in_db(document, user_topic, content_type, model)`.
`document = none` models a missing/falsy document; the judgment agent is
the oracle `judge`.  The `user_topic` and `content_type` arguments only
feed the agent prompt, so they are carried but unread. -/
def validate_existing_location_in_db (document : Option DocView)
    (user_topic content_type : String) (judge : AgentOutcome) : DbValidation :=
  match document with
  | none => ⟨false, true, "No location data in document", none⟩
  | some d =>
    match d.location with
    | none => ⟨false, true, "No location data in document", none⟩
    | some loc =>
      if loc.address.getD "" = "" then
        ⟨false, true, "Empty address in location data", none⟩
      else
        match judge with
        | .dict iv sr rn =>
          ⟨iv.getD false, !(iv.getD false), rn.getD "Validation failed", some (sr.getD false)⟩
        | .err => ⟨true, false, "Validation passed", none⟩
        | .nonDict => ⟨true, false, "Validation passed", none⟩

/-! ## ValidatedLocationFetcher (`fetch_and_validate_location`, lines 399-463)

One loop iteration per attempt, at most `max_retries` of them.  The
geocoder oracle is indexed by attempt (external state changes between
calls); the validator oracle gives, per attempt, a valid verdict, an
invalid verdict with a retry hint, or a failure (an exception from
`safe_run`/`await`, or a non-dict result - reading `.get` off a non-dict
raises and lands in the same `except` branch).  The result is `none`
exactly when the loop body never ran (`max_retries = 0`), where the
source would raise `NameError` on `return location_data`. -/

/-- Validator outcome for one attempt of `fetch_and_validate_location`. -/
inductive ValidationOutcome where
  | valid : ValidationOutcome
  | invalid (should_retry : Bool) : ValidationOutcome
  | err : ValidationOutcome
  deriving DecidableEq, Repr

/-- The retry loop of `fetch_and_validate_location`: current query,
current attempt index, remaining iterations, and the `location_data`
binding from the previous iteration.  Returns the result and the number
of `fetch_location` calls performed. -/
def fetchValidateLoop (geo : Nat → String → Option (List GeoResult))
    (validator : Nat → ValidationOutcome) (user_topic content_type : String) :
    String → Nat → Nat → Option LocationCandidate → Option LocationCandidate × Nat
  | _, _, 0, last => (last, 0)
  | query, attempt, r + 1, _ =>
    let c := fetch_location (geo attempt) query
    if c.error.getD "" ≠ "" then
      if r > 0 then
        let rest := fetchValidateLoop geo validator user_topic content_type
          query (attempt + 1) r (some c)
        (rest.1, rest.2 + 1)
      else (some c, 1)
    else if c.address.getD "" = "" then
      if r > 0 then
        let rest := fetchValidateLoop geo validator user_topic content_type
          query (attempt + 1) r (some c)
        (rest.1, rest.2 + 1)
      else (some c, 1)
    else
      match validator attempt with
      | .valid => (some c, 1)
      | .invalid should_retry =>
        if should_retry && decide (r > 0) then
          let rest := fetchValidateLoop geo validator user_topic content_type
            (modify_search_query_for_retry user_topic content_type attempt)
            (attempt + 1) r (some c)
          (rest.1, rest.2 + 1)
        else (some c, 1)
      | .err =>
        if r > 0 then
          let rest := fetchValidateLoop geo validator user_topic content_type
            query (attempt + 1) r (some c)
          (rest.1, rest.2 + 1)
        else (some c, 1)

/-- Source `fetch_and_validate_location(user_topic, search_query, content_type, model, max_retries)`:
result plus the number of resolve attempts performed. -/
def fetch_and_validate_location (geo : Nat → String → Option (List GeoResult))
    (validator : Nat → ValidationOutcome) (user_topic search_query content_type : String)
    (max_retries : Nat) : Option LocationCandidate × Nat :=
  fetchValidateLoop geo validator user_topic content_type search_query 0 max_retries none

/-- The query used at attempt `n` when every earlier attempt ended in an
invalid verdict with a retry: the initial query at attempt 0, and
`modify_search_query_for_retry(topic, type, n-1)` afterwards. -/
def retryQueryAt (user_topic content_type q0 : String) : Nat → String
  | 0 => q0
  | n + 1 => modify_search_query_for_retry user_topic content_type n

/-! ## ReconciliationEngine (`smart_content_generation`, lines 1673-1784;
`generate_basic_fallback`, lines 1604-1669)

The stored record is modelled by the fields the reconciliation branch
reads and writes.  The document store is modelled as a value: the
partial update applies the staged fields to the record (the refreshed
document read back after `update_document_partial`).  The generation
agents for description/content/guidelines are string oracles, and the
smart-location agent's dict is projected to the two keys the code reads,
with the source's `.get` defaults already applied. -/

/-- The slice of a stored record used by the reconciliation branch. -/
structure Record where
  slug : String
  postType : String
  shortDescription : String
  text : String
  guidelines : String
  location : Option LocationData
  createdAt : CreatedAt
  deriving DecidableEq, Repr

/-- The smart-location agent's answer, after the source's defaulting:
`should_fetch = result.get("should_fetch", True)`,
`search_query = result.get("search_query", user_topic)`. -/
structure SmartLocOutcome where
  should_fetch : Bool
  search_query : String
  deriving DecidableEq, Repr

/-- The `updated_fields` dict staged during one reconciliation pass. -/
structure StagedUpdates where
  location : Option LocationData := none
  shortDescription : Option String := none
  text : Option String := none
  guidelines : Option String := none
  deriving DecidableEq, Repr

/-- Test that `updated_fields` is the empty dict. -/
def StagedUpdates.isEmpty (u : StagedUpdates) : Bool :=
  u.location.isNone && u.shortDescription.isNone && u.text.isNone && u.guidelines.isNone

/-- The record read back after `update_document_partial` applied the
staged fields. -/
def applyUpdates (doc : Record) (u : StagedUpdates) : Record :=
  { doc with
    location := match u.location with
      | none => doc.location
      | some l => some l
    shortDescription := u.shortDescription.getD doc.shortDescription
    text := u.text.getD doc.text
    guidelines := u.guidelines.getD doc.guidelines }

/-- The existing-record branch of `smart_content_generation`: validate
the stored location, re-fetch it (bounded loop, `max_retries = 3`) when
the verdict demands it and the smart-location agent agrees, run the
staleness detector on the three text fields and stage non-empty
regenerations, then apply the staged fields if any and return the
refreshed record, or the untouched record when nothing was staged.
Returns the record handed back to the caller and the staged updates. -/
def reconcileExisting (doc : Record) (user_topic : String) (judge : AgentOutcome)
    (locDecision : SmartLocOutcome) (geo : Nat → String → Option (List GeoResult))
    (validator : Nat → ValidationOutcome)
    (newDescription newContent newGuidelines : String) : Record × StagedUpdates :=
  let lv := validate_existing_location_in_db (some ⟨doc.location⟩) user_topic doc.postType judge
  let u0 : StagedUpdates := {}
  let u1 :=
    if lv.needs_update then
      if locDecision.should_fetch then
        match (fetch_and_validate_location geo validator user_topic
            locDecision.search_query doc.postType 3).1 with
        | some nl =>
          if nl.error.getD "" = "" && nl.address.getD "" ≠ "" then
            { u0 with location := some ⟨nl.address, nl.latitude, nl.longitude⟩ }
          else u0
        | none => u0
      else u0
    else u0
  let u2 :=
    if needs_field_update doc.shortDescription user_topic doc.createdAt false then
      if newDescription ≠ "" && pyStrip newDescription ≠ "" then
        { u1 with shortDescription := some newDescription }
      else u1
    else u1
  let u3 :=
    if needs_field_update doc.text user_topic doc.createdAt true then
      if newContent ≠ "" && pyStrip newContent ≠ "" then
        { u2 with text := some newContent }
      else u2
    else u2
  let u4 :=
    if needs_field_update doc.guidelines user_topic doc.createdAt false then
      if newGuidelines ≠ "" && pyStrip newGuidelines ≠ "" then
        { u3 with guidelines := some newGuidelines }
      else u3
    else u3
  if u4.isEmpty then (doc, u4) else (applyUpdates doc u4, u4)

/-- Source `generate_basic_fallback(user_topic, ...)`: the minimal record built
with no agent calls - generic description and content, `blog` post type,
and an unset location `{"address": None, "latitude": 0.0, "longitude": 0.0}`.
Its `createdAt` is `datetime.utcnow()`, i.e. age zero days. -/
def generate_basic_fallback (user_topic : String) : Record :=
  { slug := slugify user_topic
    postType := "blog"
    shortDescription := user_topic ++ " is a popular destination worth exploring."
    text := "<p>Welcome to " ++ user_topic ++
      ". This destination offers unique experiences for travelers.</p><p>Plan your visit and explore the local attractions.</p>"
    guidelines := "Check local guidelines before visiting " ++ user_topic ++ "."
    location := some ⟨none, 0, 0⟩
    createdAt := .parsed 0 }

/-- Source `smart_content_generation(user_topic, more_details)`: when a record
exists, reconcile it; otherwise run full generation, and on any raised
exception fall back to `generate_basic_fallback`.  Full generation is an
oracle `Except Unit Record` (`.error` models a raise); the function
always produces a record - the embedding of the source's outermost
`try/except` around generation. -/
def smart_content_generation (user_topic : String) (existing : Option Record)
    (judge : AgentOutcome) (locDecision : SmartLocOutcome)
    (geo : Nat → String → Option (List GeoResult)) (validator : Nat → ValidationOutcome)
    (newDescription newContent newGuidelines : String)
    (fullGeneration : Except Unit Record) : Record × StagedUpdates :=
  match existing with
  | some doc =>
    reconcileExisting doc user_topic judge locDecision geo validator
      newDescription newContent newGuidelines
  | none =>
    match fullGeneration with
    | .ok r => (r, {})
    | .error _ => (generate_basic_fallback user_topic, {})

/-! ## Theorems -/

/-- C3: `needs_field_update` returns true exactly when at least one of
the six staleness rules holds - the short-circuit chain equals the pure
OR of rules 1-6 (blank field; outdated or missing/unparsable timestamp;
wrong-region mention; generic filler phrase; missing topic name; stale
year token on long-form fields). -/
theorem claim_C3 (field_content user_topic : String) (created_at : CreatedAt)
    (is_content_field : Bool) :
    needs_field_update field_content user_topic created_at is_content_field =
      ((field_content = "" || pyStrip field_content = "") ||
        is_content_outdated created_at 60 ||
        contains_wrong_location field_content user_topic ||
        contains_generic_phrases field_content ||
        missing_topic_name field_content user_topic ||
        (is_content_field && contains_outdated_years field_content)) := by
  unfold needs_field_update
  repeat' split
  all_goals simp_all

/-- C10: with an empty topic, `missing_topic_name` is true, so
`needs_field_update` flags every field as stale regardless of its
content, its timestamp, or the long-form flag. -/
theorem claim_C10 (field_content : String) (created_at : CreatedAt)
    (is_content_field : Bool) :
    missing_topic_name field_content "" = true ∧
    needs_field_update field_content "" created_at is_content_field = true := by
  have hm : missing_topic_name field_content "" = true := by
    simp [missing_topic_name]
  refine ⟨hm, ?_⟩
  unfold needs_field_update
  repeat' split
  all_goals simp_all

/-- C9: in every branch of `validate_existing_location_in_db` - missing
document or location, empty address, a normal agent verdict, and the
fail-open default - the returned verdict satisfies
`needs_update = not is_valid`. -/
theorem claim_C9 (document : Option DocView) (user_topic content_type : String)
    (judge : AgentOutcome) :
    (validate_existing_location_in_db document user_topic content_type judge).needs_update
      = !(validate_existing_location_in_db document user_topic content_type judge).is_valid := by
  rcases document with _ | ⟨_ | loc⟩
  · rfl
  · rfl
  · by_cases h : loc.address.getD "" = ""
    · simp [validate_existing_location_in_db, h]
    · cases judge <;> simp [validate_existing_location_in_db, h]

/-- C6: the retry-query derivation is a pure deterministic function of
`(topic, content_type, attempt)`, and it equals the specification's
description: attempt 0 appends ", Goa" when "goa" is absent from the
lowered topic, attempt 1 appends the content-type keyword
(Beach/Restaurant/Festival, otherwise the topic unchanged), and attempt
≥ 2 collapses to the first whitespace token of the topic. -/
theorem claim_C6 (user_topic content_type : String) (attempt : Nat) :
    modify_search_query_for_retry user_topic content_type attempt
        = modify_search_query_for_retry user_topic content_type attempt ∧
    modify_search_query_for_retry user_topic content_type attempt
        = retry_query_spec user_topic content_type attempt := by
  refine ⟨rfl, ?_⟩
  unfold modify_search_query_for_retry retry_query_spec
  rcases h : pySplit user_topic with _ | ⟨w, ws⟩ <;> simp [h]

/-- C4: when the judgment capability fails (raises/times out, modelled
by `err`) or returns an unusable non-dict result, and the stored
document actually reaches the capability call (it has a location with a
non-empty address), `validate_existing_location_in_db` returns the
fail-open permissive verdict with `is_valid = true`. -/
theorem claim_C4 (user_topic content_type : String) (loc : LocationData)
    (judge : AgentOutcome) (haddr : loc.address.getD "" ≠ "")
    (hjudge : ∀ iv sr rn, judge ≠ .dict iv sr rn) :
    validate_existing_location_in_db (some ⟨some loc⟩) user_topic content_type judge
      = ⟨true, false, "Validation passed", none⟩ := by
  cases judge with
  | err => simp [validate_existing_location_in_db, haddr]
  | nonDict => simp [validate_existing_location_in_db, haddr]
  | dict iv sr rn => exact absurd rfl (hjudge iv sr rn)

/-- Witness for C4: a stored Colva Beach location with a failing
judgment capability yields the permissive default verdict. -/
theorem claim_C4_witness :
    ((some "Colva Beach, Goa, India" : Option String).getD "" ≠ "") ∧
    validate_existing_location_in_db
        (some ⟨some ⟨some "Colva Beach, Goa, India", 15, 73⟩⟩) "Colva Beach" "beach" .err
      = ⟨true, false, "Validation passed", none⟩ :=
  ⟨by decide,
   claim_C4 "Colva Beach" "beach" ⟨some "Colva Beach, Goa, India", 15, 73⟩ .err
     (by decide) (by rintro _ _ _ ⟨⟩)⟩

/-- C5: when no record exists and full generation raises,
`smart_content_generation` returns the minimal fallback record instead
of propagating the failure; the fallback record has the default `blog`
post type, the unset location, and the generic description.  The
embedding is a total function, so a record is produced for every input. -/
theorem claim_C5 (user_topic : String) (judge : AgentOutcome)
    (locDecision : SmartLocOutcome) (geo : Nat → String → Option (List GeoResult))
    (validator : Nat → ValidationOutcome) (newDescription newContent newGuidelines : String) :
    smart_content_generation user_topic none judge locDecision geo validator
        newDescription newContent newGuidelines (Except.error ())
      = (generate_basic_fallback user_topic, {}) ∧
    (generate_basic_fallback user_topic).postType = "blog" ∧
    (generate_basic_fallback user_topic).location = some ⟨none, 0, 0⟩ ∧
    (generate_basic_fallback user_topic).shortDescription
      = user_topic ++ " is a popular destination worth exploring." :=
  ⟨rfl, rfl, rfl, rfl⟩

/-- Invariant of the `fetch_location` strategy loop: its result is the
first India-matching result over the remaining strategies, else the
remembered fallback, else the first non-empty result over the remaining
strategies, else the not-found candidate. -/
theorem fetchLocationLoop_fst (geo : String → Option (List GeoResult)) (address : String) :
    ∀ (qs : List String) (best : Option LocationCandidate),
      (fetchLocationLoop geo address qs best).1 =
        ((firstIndianHit geo address qs).or (best.or (firstAnyHit geo address qs))).getD
          (notFoundCandidate address) := by
  intro qs
  induction qs with
  | nil =>
    intro best
    cases best <;> simp [fetchLocationLoop, firstIndianHit, firstAnyHit]
  | cons q qs ih =>
    intro best
    simp only [firstIndianHit, firstAnyHit, List.findSome?_cons] at *
    cases hg : geo q with
    | none =>
      simpa [fetchLocationLoop, hg] using ih best
    | some data =>
      cases data with
      | nil => simpa [fetchLocationLoop, hg] using ih best
      | cons d ds =>
        cases hf : (d :: ds).filter isIndianResult with
        | cons ir irs => simp [fetchLocationLoop, hg, hf]
        | nil =>
          cases best with
          | some b => simpa [fetchLocationLoop, hg, hf] using ih (some b)
          | none => simpa [fetchLocationLoop, hg, hf] using ih (some (candidateOf d address))

/-- C2: on any non-empty query, `fetch_location` equals the
specification's resolver: strategies are tried in order, the first
India-matching result (country code `in` or `india` in the formatted
address) is returned, otherwise the first non-empty result seen from any
strategy, and `Location not found` only when every strategy returned
empty (or failed). -/
theorem claim_C2 (geo : String → Option (List GeoResult)) (address : String)
    (h : address ≠ "") :
    fetch_location geo address = fetch_location_spec geo address := by
  unfold fetch_location fetch_location_spec
  rw [if_neg h, if_neg h, fetchLocationLoop_fst geo address (unique_strategies address) none]
  simp

/-- Geocoder for the C2 witness: the first strategy for "Colva" answers
with a Goa result; every other query returns no results. -/
def geoColvaWitness : String → Option (List GeoResult) := fun q =>
  if q = "Colva, India" then some [⟨some "Colva, Salcete, South Goa, Goa, India", some "in", 15, 73⟩]
  else some []

/-- Witness for C2 at the concrete query "Colva". -/
theorem claim_C2_witness :
    ("Colva" ≠ "") ∧ fetch_location geoColvaWitness "Colva" = fetch_location_spec geoColvaWitness "Colva" :=
  ⟨by decide, claim_C2 geoColvaWitness "Colva" (by decide)⟩

/-- Geocoder for the C7 counterexample: every request succeeds with an
empty result list, so the resolver walks all strategies. -/
def geoAllEmpty : String → Option (List GeoResult) := fun _ => some []

/-- Counterexample to C7 as stated: `fetch_location` contains no
rate-limit pause at all, so on the query "Baga" it issues its
back-to-back strategy requests with no sleep preceding any of them. -/
theorem claim_C7_counterexample :
    throttled (fetch_location_events geoAllEmpty "Baga") = false := by decide

/-- When every strategy request fails, the loop still tries every
remaining strategy: the trace is one request per strategy. -/
theorem fetchLocationLoop_events_allFail (geo : String → Option (List GeoResult))
    (address : String) (h : ∀ q, geo q = none) :
    ∀ (qs : List String) (best : Option LocationCandidate),
      (fetchLocationLoop geo address qs best).2 = qs.map Event.request := by
  intro qs
  induction qs with
  | nil => intro best; rfl
  | cons q qs ih => intro best; simp [fetchLocationLoop, h q, ih]

/-- C7 amended: the stricter resolver variant `fetch_location_precise`
does pause at least one second (1.1s) before its geocoding request, but
`fetch_location` issues its strategy requests with no pause; and a
failure on a strategy does not abort the remaining strategies - when
every request fails, every strategy is still tried in order. -/
theorem claim_C7_amended (geo : String → Option (List GeoResult)) (address query : String) :
    throttled (fetch_location_precise_events query) = true ∧
    (address ≠ "" → (∀ q, geo q = none) →
      fetch_location_events geo address = (unique_strategies address).map Event.request) := by
  refine ⟨rfl, fun ha hg => ?_⟩
  unfold fetch_location_events
  rw [if_neg ha]
  exact fetchLocationLoop_events_allFail geo address hg (unique_strategies address) none

/-- Geocoder for the C7 witness: every request raises. -/
def geoAllFail : String → Option (List GeoResult) := fun _ => none

/-- Witness for the amended C7 at concrete queries. -/
theorem claim_C7_witness :
    throttled (fetch_location_precise_events "Calangute") = true ∧
    fetch_location_events geoAllFail "Baga" = (unique_strategies "Baga").map Event.request :=
  ⟨(claim_C7_amended geoAllFail "Baga" "Calangute").1,
   (claim_C7_amended geoAllFail "Baga" "Calangute").2 (by decide) (fun _ => rfl)⟩

/-- The retry loop performs at most as many resolve attempts as it has
remaining iterations. -/
theorem fetchValidateLoop_count_le (geo : Nat → String → Option (List GeoResult))
    (validator : Nat → ValidationOutcome) (user_topic content_type : String) :
    ∀ (r : Nat) (query : String) (attempt : Nat) (last : Option LocationCandidate),
      (fetchValidateLoop geo validator user_topic content_type query attempt r last).2 ≤ r := by
  intro r
  induction r with
  | zero => intro query attempt last; simp [fetchValidateLoop]
  | succ r ih =>
    intro query attempt last
    simp only [fetchValidateLoop]
    repeat' split
    all_goals simp only []
    all_goals first
      | exact Nat.succ_le_succ (Nat.zero_le r)
      | exact Nat.succ_le_succ (ih _ _ _)

/-- One terminal step of the retry loop: on the last remaining
iteration, an error-free candidate with an address that the validator
rejects is returned as-is. -/
theorem fetchValidateLoop_last_invalid (geo : Nat → String → Option (List GeoResult))
    (validator : Nat → ValidationOutcome) (user_topic content_type query : String)
    (attempt : Nat) (last : Option LocationCandidate)
    (he : (fetch_location (geo attempt) query).error.getD "" = "")
    (hA : (fetch_location (geo attempt) query).address.getD "" ≠ "")
    (hv : validator attempt = .invalid true) :
    fetchValidateLoop geo validator user_topic content_type query attempt 1 last
      = (some (fetch_location (geo attempt) query), 1) := by
  simp only [fetchValidateLoop]
  rw [if_neg (by simp [he]), if_neg hA, hv]
  simp

/-- One retrying step of the loop: with iterations to spare, an
error-free candidate with an address that the validator rejects with a
retry hint reformulates the query and recurses. -/
theorem fetchValidateLoop_step_invalid (geo : Nat → String → Option (List GeoResult))
    (validator : Nat → ValidationOutcome) (user_topic content_type query : String)
    (attempt r : Nat) (last : Option LocationCandidate)
    (he : (fetch_location (geo attempt) query).error.getD "" = "")
    (hA : (fetch_location (geo attempt) query).address.getD "" ≠ "")
    (hv : validator attempt = .invalid true) (hrpos : 0 < r) :
    fetchValidateLoop geo validator user_topic content_type query attempt (r + 1) last
      = ((fetchValidateLoop geo validator user_topic content_type
            (modify_search_query_for_retry user_topic content_type attempt) (attempt + 1) r
            (some (fetch_location (geo attempt) query))).1,
         (fetchValidateLoop geo validator user_topic content_type
            (modify_search_query_for_retry user_topic content_type attempt) (attempt + 1) r
            (some (fetch_location (geo attempt) query))).2 + 1) := by
  conv_lhs => rw [fetchValidateLoop]
  rw [if_neg (by simp [he]), if_neg hA, hv]
  simp [hrpos]

/-- When the validator answers "invalid, retry" at every attempt and
every resolve succeeds with an address, the loop runs all its remaining
iterations and ends holding the candidate of the final attempt. -/
theorem fetchValidateLoop_always_invalid (geo : Nat → String → Option (List GeoResult))
    (validator : Nat → ValidationOutcome) (user_topic content_type q0 : String) (m : Nat)
    (hv : ∀ i, i < m → validator i = .invalid true)
    (hr : ∀ i, i < m →
      (fetch_location (geo i) (retryQueryAt user_topic content_type q0 i)).error.getD "" = "" ∧
      (fetch_location (geo i) (retryQueryAt user_topic content_type q0 i)).address.getD "" ≠ "") :
    ∀ (r a : Nat) (last : Option LocationCandidate), a + r + 1 = m →
      fetchValidateLoop geo validator user_topic content_type
          (retryQueryAt user_topic content_type q0 a) a (r + 1) last
        = (some (fetch_location (geo (m - 1)) (retryQueryAt user_topic content_type q0 (m - 1))),
           r + 1) := by
  intro r
  induction r with
  | zero =>
    intro a last hm
    have hia : a < m := by omega
    obtain ⟨he, hA⟩ := hr a hia
    have ha : a = m - 1 := by omega
    subst ha
    exact fetchValidateLoop_last_invalid geo validator user_topic content_type _ _ last
      he hA (hv _ hia)
  | succ r ih =>
    intro a last hm
    have hia : a < m := by omega
    obtain ⟨he, hA⟩ := hr a hia
    rw [fetchValidateLoop_step_invalid geo validator user_topic content_type _ a (r + 1) last
      he hA (hv _ hia) (Nat.succ_pos r)]
    have hq : modify_search_query_for_retry user_topic content_type a
        = retryQueryAt user_topic content_type q0 (a + 1) := rfl
    rw [hq, ih (a + 1) _ (by omega)]

/-- C1: `fetch_and_validate_location` performs at most `max_retries`
resolve attempts for any input; and when every resolve yields an
error-free candidate with an address while the validator reports
"invalid, should retry" at every attempt, the loop terminates after the
`max_retries`-th attempt and returns the candidate produced by the final
resolve. -/
theorem claim_C1 (geo : Nat → String → Option (List GeoResult))
    (validator : Nat → ValidationOutcome) (user_topic search_query content_type : String)
    (max_retries : Nat) :
    (fetch_and_validate_location geo validator user_topic search_query content_type
        max_retries).2 ≤ max_retries ∧
    (1 ≤ max_retries →
      (∀ i, i < max_retries → validator i = .invalid true) →
      (∀ i, i < max_retries →
        (fetch_location (geo i)
          (retryQueryAt user_topic content_type search_query i)).error.getD "" = "" ∧
        (fetch_location (geo i)
          (retryQueryAt user_topic content_type search_query i)).address.getD "" ≠ "") →
      fetch_and_validate_location geo validator user_topic search_query content_type max_retries
        = (some (fetch_location (geo (max_retries - 1))
            (retryQueryAt user_topic content_type search_query (max_retries - 1))),
           max_retries)) := by
  constructor
  · exact fetchValidateLoop_count_le geo validator user_topic content_type max_retries
      search_query 0 none
  · intro hm hv hr
    obtain ⟨k, rfl⟩ : ∃ k, max_retries = k + 1 := ⟨max_retries - 1, by omega⟩
    exact fetchValidateLoop_always_invalid geo validator user_topic content_type search_query
      (k + 1) hv hr k 0 none (by omega)

/-- Geocoder for the C1 witness: every request answers with one Goa
result, so each resolve attempt succeeds. -/
def geoGoaConst : Nat → String → Option (List GeoResult) :=
  fun _ _ => some [⟨some "Colva Beach, Salcete, South Goa, Goa, India", some "in", 15, 73⟩]

/-- Validator for the C1 witness: always invalid, always asks to retry. -/
def validatorAlwaysRetry : Nat → ValidationOutcome := fun _ => .invalid true

/-- Witness for C1: with 2 retries and an always-invalid/always-retry
validator, the loop runs exactly 2 attempts and returns the final
attempt's candidate. -/
theorem claim_C1_witness :
    (1 : Nat) ≤ 2 ∧
    fetch_and_validate_location geoGoaConst validatorAlwaysRetry "Colva" "Colva" "beach" 2
      = (some (fetch_location (geoGoaConst 1) (retryQueryAt "Colva" "beach" "Colva" 1)), 2) :=
  ⟨by decide,
   (claim_C1 geoGoaConst validatorAlwaysRetry "Colva" "Colva" "beach" 2).2
     (by decide) (by decide) (by decide)⟩

/-- A reconciliation pass over a record whose stored location the
validator accepts and whose three text fields all pass the staleness
rules stages nothing and returns the record unchanged. -/
theorem reconcileExisting_no_staging (doc : Record) (user_topic : String)
    (judge : AgentOutcome) (locDecision : SmartLocOutcome)
    (geo : Nat → String → Option (List GeoResult)) (validator : Nat → ValidationOutcome)
    (newDescription newContent newGuidelines : String)
    (hloc : (validate_existing_location_in_db (some ⟨doc.location⟩) user_topic doc.postType
        judge).needs_update = false)
    (hdesc : needs_field_update doc.shortDescription user_topic doc.createdAt false = false)
    (htext : needs_field_update doc.text user_topic doc.createdAt true = false)
    (hguide : needs_field_update doc.guidelines user_topic doc.createdAt false = false) :
    reconcileExisting doc user_topic judge locDecision geo validator
        newDescription newContent newGuidelines = (doc, {}) := by
  simp [reconcileExisting, hloc, hdesc, htext, hguide, StagedUpdates.isEmpty]

/-- C8: reconciliation is idempotent on fresh valid data - for a record
whose stored location the validator judges valid and whose text fields
each pass all staleness rules (in particular any freshly created record
with age under the 60-day threshold and well-formed fields), the first
reconciliation returns the record unchanged, and a second reconciliation
run in immediate succession also stages zero field updates and returns
the same record unchanged. -/
theorem claim_C8 (doc : Record) (user_topic : String) (judge1 judge2 : AgentOutcome)
    (locDec1 locDec2 : SmartLocOutcome)
    (geo1 geo2 : Nat → String → Option (List GeoResult))
    (val1 val2 : Nat → ValidationOutcome) (d1 c1 g1 d2 c2 g2 : String)
    (hloc1 : (validate_existing_location_in_db (some ⟨doc.location⟩) user_topic doc.postType
        judge1).needs_update = false)
    (hloc2 : (validate_existing_location_in_db (some ⟨doc.location⟩) user_topic doc.postType
        judge2).needs_update = false)
    (hdesc : needs_field_update doc.shortDescription user_topic doc.createdAt false = false)
    (htext : needs_field_update doc.text user_topic doc.createdAt true = false)
    (hguide : needs_field_update doc.guidelines user_topic doc.createdAt false = false) :
    reconcileExisting doc user_topic judge1 locDec1 geo1 val1 d1 c1 g1 = (doc, {}) ∧
    reconcileExisting (reconcileExisting doc user_topic judge1 locDec1 geo1 val1 d1 c1 g1).1
        user_topic judge2 locDec2 geo2 val2 d2 c2 g2 = (doc, {}) := by
  have hfirst := reconcileExisting_no_staging doc user_topic judge1 locDec1 geo1 val1 d1 c1 g1
    hloc1 hdesc htext hguide
  refine ⟨hfirst, ?_⟩
  rw [hfirst]
  exact reconcileExisting_no_staging doc user_topic judge2 locDec2 geo2 val2 d2 c2 g2
    hloc2 hdesc htext hguide

/-- Fresh, fully valid record for the C8 witness. -/
def docColva : Record :=
  { slug := "colva"
    postType := "beach"
    shortDescription := "Colva is a scenic coastal stretch."
    text := "Colva offers quiet sands and calm surf."
    guidelines := "Respect Colva locals and the shore."
    location := some ⟨some "Colva, Goa, India", 15, 73⟩
    createdAt := .parsed 5 }

/-- Judgment outcome for the C8 witness: the stored location is valid. -/
def judgeValid : AgentOutcome := .dict (some true) (some false) (some "matches topic")

/-- Witness for C8: on a 5-day-old record whose fields name the topic
and whose location the validator accepts, both back-to-back
reconciliation runs stage nothing and return the record unchanged. -/
theorem claim_C8_witness :
    ((validate_existing_location_in_db (some ⟨docColva.location⟩) "Colva" docColva.postType
        judgeValid).needs_update = false) ∧
    reconcileExisting docColva "Colva" judgeValid ⟨true, "Colva"⟩ (fun _ _ => none)
        (fun _ => .valid) "" "" "" = (docColva, {}) ∧
    reconcileExisting (reconcileExisting docColva "Colva" judgeValid ⟨true, "Colva"⟩
          (fun _ _ => none) (fun _ => .valid) "" "" "").1
        "Colva" judgeValid ⟨true, "Colva"⟩ (fun _ _ => none) (fun _ => .valid) "" "" ""
      = (docColva, {}) := by
  refine ⟨by decide, ?_, ?_⟩
  · exact (claim_C8 docColva "Colva" judgeValid judgeValid ⟨true, "Colva"⟩ ⟨true, "Colva"⟩
      (fun _ _ => none) (fun _ _ => none) (fun _ => .valid) (fun _ => .valid)
      "" "" "" "" "" "" (by decide) (by decide) (by decide) (by decide) (by decide)).1
  · exact (claim_C8 docColva "Colva" judgeValid judgeValid ⟨true, "Colva"⟩ ⟨true, "Colva"⟩
      (fun _ _ => none) (fun _ _ => none) (fun _ => .valid) (fun _ => .valid)
      "" "" "" "" "" "" (by decide) (by decide) (by decide) (by decide) (by decide)).2

end TravelGuide
